import Mathlib

/-!
# Verification of `tcpping_python3.py`

A shallow embedding of the core of the tcpping tool: the single-connection
probe `conn_tcp`, the running-statistics aggregator `ResultBucket`, the
loop-continuation predicate `judge_count`, and the source-port rotation step
of the driver loop `go`.

Time values (`time.time()` readings, durations) are embedded as rationals.
The effectful socket operations of `conn_tcp` are driven by an explicit
environment `ProbeEnv` recording which operation (if any) raises and what
each successive `time.time()` call returns.
-/

namespace Tcpping

/-! ## StatsAggregator: class `ResultBucket` -/

/-- State of the `ResultBucket` class (its `__init__` fields). -/
structure ResultBucket where
  dst_host : String
  dst_port : Int
  is_initialled : Bool
  ok_count : Nat
  error_count : Nat
  min_time : ℚ
  max_time : ℚ
  avg_time : ℚ
  deriving DecidableEq

/-- `ResultBucket.__init__(dst_host, dst_port)`: counters at 0, times at 0.0,
`is_initialled = False`. -/
def mkBucket (dst_host : String) (dst_port : Int) : ResultBucket :=
  ⟨dst_host, dst_port, false, 0, 0, 0, 0, 0⟩

/-- `ResultBucket.put(conn_time, status)`, translated clause by clause from
the source: a failed attempt only bumps `error_count`; the first success
initialises `min/max/avg` to the latency; later successes fold the latency
into min, max and the incremental average; `ok_count` is incremented on
every success. -/
def ResultBucket.put (b : ResultBucket) (conn_time : ℚ) (status : Bool) : ResultBucket :=
  if !status then
    { b with error_count := b.error_count + 1 }
  else if !b.is_initialled then
    { b with
      min_time := conn_time
      max_time := conn_time
      avg_time := conn_time
      is_initialled := true
      ok_count := b.ok_count + 1 }
  else
    { b with
      min_time := min b.min_time conn_time
      max_time := max b.max_time conn_time
      avg_time := (b.avg_time * (b.ok_count : ℚ) + conn_time) / ((b.ok_count : ℚ) + 1)
      ok_count := b.ok_count + 1 }

/-- Feed a whole sequence of `(conn_time, status)` events to the bucket,
in order, via `put`. -/
def runPut (b : ResultBucket) (evs : List (ℚ × Bool)) : ResultBucket :=
  evs.foldl (fun b e => b.put e.1 e.2) b

/-- The latencies of the successful (`status = true`) events, in order. -/
def succLats (evs : List (ℚ × Bool)) : List ℚ :=
  evs.filterMap (fun e => if e.2 then some e.1 else none)

/-- The number of failed (`status = false`) events. -/
def failCount (evs : List (ℚ × Bool)) : Nat :=
  (evs.filter (fun e => !e.2)).length

/-- The minimum of a list of rationals (0 for the empty list). -/
def listMin : List ℚ → ℚ
  | [] => 0
  | x :: xs => xs.foldl min x

/-- The maximum of a list of rationals (0 for the empty list). -/
def listMax : List ℚ → ℚ
  | [] => 0
  | x :: xs => xs.foldl max x

/-! ## Prober: function `conn_tcp` -/

/-- Environment driving one `conn_tcp` call: the stream of successive
`time.time()` readings and, for each fallible socket operation appearing in
the source, whether it raises.  `inflight_close_fails` covers a raise from
the post-connect `time.sleep`/`s.close()` pair inside the `try` body;
`cleanup_close_fails` is a raise from the `s.close()` in the `finally`
block.  `sockname` is what `s.getsockname()` returns. -/
structure ProbeEnv where
  clock : Nat → ℚ
  bind_fails : Bool
  connect_fails : Bool
  inflight_close_fails : Bool
  cleanup_close_fails : Bool
  sockname : Option (String × Int)

/-- The guard of line 53, `if src_host and src_port and src_port < 65536:`,
with Python truthiness: a `None` or empty source host is falsy, a `None` or
zero source port is falsy. -/
def bind_attempted (src_host : Option String) (src_port : Option Int) : Bool :=
  match src_host, src_port with
  | some h, some p => !(h.isEmpty) && !(p == 0) && decide (p < 65536)
  | _, _ => false

/-- Lines 76–87 of the source: from the timestamps `t1 t2 t3 te` (−1 when
never assigned) compute the returned `(conn_time, close_time)` pair, both
starting at the −1 sentinel. -/
def conn_epilogue (t1 t2 t3 te : ℚ) : ℚ × ℚ :=
  let conn_time : ℚ := if t2 ≥ 0 then t2 - t1 else -1
  let close_time : ℚ := if t3 ≥ 0 then t3 - t2 else -1
  if te ≥ 0 then
    if t2 ≥ 0 then (t2 - t1, t3 - t2) else (te - t1, close_time)
  else
    (conn_time, close_time)

/-- Result tuple of `conn_tcp`: `(conn_time, close_time, err, local_addr)`.
The error is modelled by its presence (`err = true` iff the returned error
value is a caught exception rather than the empty string). -/
structure ConnResult where
  conn_time : ℚ
  close_time : ℚ
  err : Bool
  local_addr : Option (String × Int)
  deriving DecidableEq

/-- `conn_tcp`, translated path by path from the source.  The timestamps are
successive readings of `env.clock`; the first operation of the `try` body
that the environment makes raise sends control to the `except` handler,
which records `local_addr`, the error, and `te`.  The second component of
the result is the message printed by the `except` clause inside the
`finally` block: the cleanup `s.close()` failure is caught there and only
printed, so it shows up as diagnostic output, never in the returned tuple.

* bind raises (only possible when the bind is attempted): no timestamp was
  taken yet, so `t1 = t2 = t3 = −1` and `te` is the first clock reading;
* connect (or `settimeout`) raises: `t1` was taken, `te` is the next reading;
* the in-flight sleep/close raises: `t1`, `t2` were taken, then `te`;
* nothing raises: `t1`, `t2`, `t3` are the three readings and `te = −1`. -/
def conn_tcp (env : ProbeEnv) (dst_host : String) (dst_port : Int) (timeout : ℚ)
    (src_host : Option String) (src_port : Option Int)
    (rst : Bool) (reuse : Bool) (delay_close_second : ℚ) :
    ConnResult × Option String :=
  let printed : Option String :=
    if env.cleanup_close_fails then some "cleanup close raised" else none
  if bind_attempted src_host src_port && env.bind_fails then
    let d := conn_epilogue (-1) (-1) (-1) (env.clock 0)
    (⟨d.1, d.2, true, env.sockname⟩, printed)
  else if env.connect_fails then
    let d := conn_epilogue (env.clock 0) (-1) (-1) (env.clock 1)
    (⟨d.1, d.2, true, env.sockname⟩, printed)
  else if env.inflight_close_fails then
    let d := conn_epilogue (env.clock 0) (env.clock 1) (-1) (env.clock 2)
    (⟨d.1, d.2, true, env.sockname⟩, printed)
  else
    let d := conn_epilogue (env.clock 0) (env.clock 1) (env.clock 2) (-1)
    (⟨d.1, d.2, false, env.sockname⟩, printed)

/-! ## Driver loop: `judge_count`, port rotation, the counted loop of `go` -/

/-- `judge_count(count)`: `count > 0 if count is not None else True`. -/
def judge_count : Option Int → Bool
  | none => true
  | some c => decide (0 < c)

/-- The source-port rotation step of `go` (lines 165–169): increment, and
reset to 1024 once the port reaches 65536. -/
def rotateStep (p : Int) : Int :=
  let p' := p + 1
  if p' ≥ 65536 then 1024 else p'

/-- The `while judge_count(count)` loop of `go` for a supplied (bounded)
count, with the per-iteration probe outcomes `(conn_time, not bool(err))`
supplied by the oracle `probes` (iteration index `i`), the aggregator state
`b`, the current source port `sp` (advanced by `rotateStep` when rotation is
on), and the remaining count `c` (decremented each iteration).  Logging and
the interval sleep have no effect on this state and are elided. -/
def goBounded (probes : Nat → ℚ × Bool) (rotate : Bool) (i : Nat)
    (b : ResultBucket) (sp : Int) (c : Int) : ResultBucket × Int :=
  if h : judge_count (some c) = true then
    let pr := probes i
    let b' := b.put pr.1 pr.2
    let sp' := if rotate then rotateStep sp else sp
    goBounded probes rotate (i + 1) b' sp' (c - 1)
  else
    (b, sp)
termination_by c.toNat
decreasing_by
  simp only [judge_count, decide_eq_true_eq] at h
  omega

/-! ## Basic lemmas about the aggregator -/

/-- A failed `put` only bumps the error counter. -/
theorem put_false (b : ResultBucket) (a : ℚ) :
    b.put a false = { b with error_count := b.error_count + 1 } := rfl

/-- A first success initialises min, max and avg to the latency. -/
theorem put_true_uninit (b : ResultBucket) (a : ℚ) (h : b.is_initialled = false) :
    b.put a true =
      { b with min_time := a, max_time := a, avg_time := a,
               is_initialled := true, ok_count := b.ok_count + 1 } := by
  simp [ResultBucket.put, h]

/-- A later success folds the latency into min, max and the incremental
average. -/
theorem put_true_init (b : ResultBucket) (a : ℚ) (h : b.is_initialled = true) :
    b.put a true =
      { b with min_time := min b.min_time a, max_time := max b.max_time a,
               avg_time := (b.avg_time * (b.ok_count : ℚ) + a) / ((b.ok_count : ℚ) + 1),
               ok_count := b.ok_count + 1 } := by
  simp [ResultBucket.put, h]

/-- Feeding `l ++ [e]` is feeding `l`, then one `put` of `e`. -/
theorem runPut_append (b : ResultBucket) (l : List (ℚ × Bool)) (e : ℚ × Bool) :
    runPut b (l ++ [e]) = (runPut b l).put e.1 e.2 := by
  simp [runPut, List.foldl_append]

/-- A successful event appends its latency to the successful latencies. -/
theorem succLats_append_true (l : List (ℚ × Bool)) (a : ℚ) :
    succLats (l ++ [(a, true)]) = succLats l ++ [a] := by
  simp [succLats, List.filterMap_append]

/-- A failed event leaves the successful latencies unchanged. -/
theorem succLats_append_false (l : List (ℚ × Bool)) (a : ℚ) :
    succLats (l ++ [(a, false)]) = succLats l := by
  simp [succLats, List.filterMap_append]

/-- A successful event leaves the failure count unchanged. -/
theorem failCount_append_true (l : List (ℚ × Bool)) (a : ℚ) :
    failCount (l ++ [(a, true)]) = failCount l := by
  simp [failCount, List.filter_append]

/-- A failed event bumps the failure count. -/
theorem failCount_append_false (l : List (ℚ × Bool)) (a : ℚ) :
    failCount (l ++ [(a, false)]) = failCount l + 1 := by
  simp [failCount, List.filter_append]

/-- Appending an element on the right of a non-empty list folds into `min`. -/
theorem listMin_cons_append (x : ℚ) (xs : List ℚ) (a : ℚ) :
    listMin (x :: (xs ++ [a])) = min (listMin (x :: xs)) a := by
  simp [listMin, List.foldl_append]

/-- Appending an element on the right of a non-empty list folds into `max`. -/
theorem listMax_cons_append (x : ℚ) (xs : List ℚ) (a : ℚ) :
    listMax (x :: (xs ++ [a])) = max (listMax (x :: xs)) a := by
  simp [listMax, List.foldl_append]

/-- Closed form of the bucket reached from a fresh one: the counters count,
and min/max/avg are the minimum, maximum and arithmetic mean of the
successful latencies (0 while there has been no success). -/
def bucketOf (h : String) (p : Int) (evs : List (ℚ × Bool)) : ResultBucket :=
  { dst_host := h
    dst_port := p
    is_initialled := !(succLats evs).isEmpty
    ok_count := (succLats evs).length
    error_count := failCount evs
    min_time := if (succLats evs).isEmpty then 0 else listMin (succLats evs)
    max_time := if (succLats evs).isEmpty then 0 else listMax (succLats evs)
    avg_time :=
      if (succLats evs).isEmpty then 0
      else (succLats evs).sum / ((succLats evs).length : ℚ) }

/-- Every sequence of `put` calls on a fresh bucket lands on the closed
form. -/
theorem runPut_closed_form (h : String) (p : Int) (evs : List (ℚ × Bool)) :
    runPut (mkBucket h p) evs = bucketOf h p evs := by
  induction evs using List.reverseRecOn with
  | nil => rfl
  | append_singleton l e ih =>
    rw [runPut_append, ih]
    rcases e with ⟨a, s⟩
    cases s
    · simp [put_false, bucketOf, succLats_append_false, failCount_append_false]
    · rcases hL : succLats l with _ | ⟨x, xs⟩
      · rw [put_true_uninit _ _ (by simp [bucketOf, hL])]
        simp [bucketOf, succLats_append_true, failCount_append_true, hL, listMin, listMax]
      · rw [put_true_init _ _ (by simp [bucketOf, hL])]
        have hlen : ((xs.length + 1 : ℕ) : ℚ) ≠ 0 := by positivity
        simp only [bucketOf, succLats_append_true, failCount_append_true, hL,
          List.cons_append, List.isEmpty_cons, Bool.not_false, Bool.false_eq_true,
          if_false, listMin_cons_append, listMax_cons_append,
          List.length_append, List.length_cons, List.length_nil,
          List.sum_append, List.sum_cons, List.sum_nil, zero_add, add_zero,
          ResultBucket.mk.injEq, true_and, and_true]
        rw [div_mul_cancel₀ _ hlen]
        push_cast
        ring_nf

/-! ## Claim C1 -/

/-- Claim C1: for every sequence of `put` calls on a fresh bucket whose
successful entries carry latencies `L1..Ln` in order (possibly interleaved
with failed puts), with at least one success, afterwards `min_time` is the
minimum of the `Li`, `max_time` their maximum, `avg_time` their arithmetic
mean, and `ok_count = n`. -/
theorem put_sequence_computes_min_max_mean_count (h : String) (p : Int)
    (evs : List (ℚ × Bool)) (hL : succLats evs ≠ []) :
    (runPut (mkBucket h p) evs).ok_count = (succLats evs).length ∧
    (runPut (mkBucket h p) evs).min_time = listMin (succLats evs) ∧
    (runPut (mkBucket h p) evs).max_time = listMax (succLats evs) ∧
    (runPut (mkBucket h p) evs).avg_time
      = (succLats evs).sum / ((succLats evs).length : ℚ) := by
  have hE : (succLats evs).isEmpty = false := by
    rcases he : succLats evs with _ | ⟨x, xs⟩
    · exact absurd he hL
    · rfl
  rw [runPut_closed_form]
  simp [bucketOf, hE]

/-- Witness for C1 at the mixed sequence
`put 1 ok, put 5 fail, put 3 ok`: two successes, min 1, max 3, mean 2. -/
theorem put_sequence_computes_min_max_mean_count_witness :
    succLats [((1 : ℚ), true), (5, false), (3, true)] ≠ [] ∧
    ((runPut (mkBucket "example.com" 80) [((1 : ℚ), true), (5, false), (3, true)]).ok_count
        = (succLats [((1 : ℚ), true), (5, false), (3, true)]).length ∧
      (runPut (mkBucket "example.com" 80) [((1 : ℚ), true), (5, false), (3, true)]).min_time
        = listMin (succLats [((1 : ℚ), true), (5, false), (3, true)]) ∧
      (runPut (mkBucket "example.com" 80) [((1 : ℚ), true), (5, false), (3, true)]).max_time
        = listMax (succLats [((1 : ℚ), true), (5, false), (3, true)]) ∧
      (runPut (mkBucket "example.com" 80) [((1 : ℚ), true), (5, false), (3, true)]).avg_time
        = (succLats [((1 : ℚ), true), (5, false), (3, true)]).sum
            / ((succLats [((1 : ℚ), true), (5, false), (3, true)]).length : ℚ)) :=
  ⟨by decide,
    put_sequence_computes_min_max_mean_count "example.com" 80
      [((1 : ℚ), true), (5, false), (3, true)] (by decide)⟩

/-! ## Claim C5 -/

/-- Claim C5: a failed `put` increments `error_count` by exactly 1 and
leaves `min_time`, `max_time`, `avg_time`, `ok_count` and `is_initialled`
unchanged, for every starting state; the latency argument has no effect on
the resulting state. -/
theorem put_failure_frame (b : ResultBucket) (lat lat' : ℚ) :
    (b.put lat false).error_count = b.error_count + 1 ∧
    (b.put lat false).min_time = b.min_time ∧
    (b.put lat false).max_time = b.max_time ∧
    (b.put lat false).avg_time = b.avg_time ∧
    (b.put lat false).ok_count = b.ok_count ∧
    (b.put lat false).is_initialled = b.is_initialled ∧
    b.put lat false = b.put lat' false :=
  ⟨rfl, rfl, rfl, rfl, rfl, rfl, rfl⟩

/-! ## Claim C6 -/

/-- The ordering invariant of the aggregator: once a success has been
counted, `min_time ≤ avg_time ≤ max_time`. -/
def statsInv (b : ResultBucket) : Prop :=
  0 < b.ok_count → b.min_time ≤ b.avg_time ∧ b.avg_time ≤ b.max_time

/-- One `put` call preserves the ordering invariant. -/
theorem statsInv_put (b : ResultBucket) (lat : ℚ) (s : Bool)
    (hb : statsInv b) : statsInv (b.put lat s) := by
  cases s
  · rw [put_false]
    exact hb
  · cases hi : b.is_initialled
    · rw [put_true_uninit _ _ hi]
      exact fun _ => ⟨le_refl _, le_refl _⟩
    · rw [put_true_init _ _ hi]
      intro _
      rcases Nat.eq_zero_or_pos b.ok_count with hk | hk
      · rw [hk]
        push_cast
        constructor
        · calc min b.min_time lat ≤ lat := min_le_right _ _
            _ = (b.avg_time * 0 + lat) / (0 + 1) := by ring
        · calc (b.avg_time * 0 + lat) / (0 + 1) = lat := by ring
            _ ≤ max b.max_time lat := le_max_right _ _
      · obtain ⟨h1, h2⟩ := hb hk
        have hkq : (0 : ℚ) ≤ (b.ok_count : ℚ) := Nat.cast_nonneg _
        have hkq1 : (0 : ℚ) < (b.ok_count : ℚ) + 1 := by positivity
        constructor
        · rw [le_div_iff₀ hkq1]
          nlinarith [min_le_left b.min_time lat, min_le_right b.min_time lat]
        · rw [div_le_iff₀ hkq1]
          nlinarith [le_max_left b.max_time lat, le_max_right b.max_time lat]

/-- The invariant holds after feeding any event sequence to a state that
satisfies it. -/
theorem statsInv_runPut (evs : List (ℚ × Bool)) (b : ResultBucket)
    (hb : statsInv b) : statsInv (runPut b evs) := by
  induction evs generalizing b with
  | nil => exact hb
  | cons e l ih => exact ih _ (statsInv_put b e.1 e.2 hb)

/-- Claim C6: `min_time ≤ avg_time ≤ max_time` holds whenever
`ok_count > 0`: the invariant is preserved by every `put` call (success or
failure), and it holds after every sequence of `put` calls on a freshly
constructed bucket. -/
theorem min_avg_max_ordering :
    (∀ (b : ResultBucket) (lat : ℚ) (s : Bool), statsInv b → statsInv (b.put lat s)) ∧
    (∀ (h : String) (p : Int) (evs : List (ℚ × Bool)),
      statsInv (runPut (mkBucket h p) evs)) :=
  ⟨statsInv_put, fun h p evs =>
    statsInv_runPut evs (mkBucket h p) (fun hk => absurd hk (by simp [mkBucket]))⟩

/-- Witness for C6: the invariant on a fresh bucket, propagated through one
successful `put`. -/
theorem min_avg_max_ordering_witness :
    statsInv ((mkBucket "example.com" 80).put 2 true) :=
  min_avg_max_ordering.1 (mkBucket "example.com" 80) 2 true
    (fun hk => absurd hk (by simp [mkBucket]))

/-! ## Claim C8 -/

/-- Claim C8: the source-port rotation step of the driver loop maps 65535
to 1024 and every smaller port to its successor, so the port after 65535 is
1024, never 65536, 0 or a negative value. -/
theorem rotate_wraps_to_1024 :
    rotateStep 65535 = 1024 ∧ ∀ p : Int, p < 65535 → rotateStep p = p + 1 := by
  refine ⟨by decide, fun p hp => ?_⟩
  rw [rotateStep, if_neg (by omega)]

/-- Witness for C8: rotating away from port 2000. -/
theorem rotate_wraps_to_1024_witness :
    (2000 : Int) < 65535 ∧ rotateStep 2000 = 2001 :=
  ⟨by decide, rotate_wraps_to_1024.2 2000 (by decide)⟩

/-! ## Claim C10 -/

/-- Claim C10: `judge_count` is true exactly when the count is absent or
strictly positive; with a supplied count `c ≤ 0` it is false immediately,
so the driver loop performs zero probe attempts and leaves the aggregator
(and the rotation state) untouched. -/
theorem judge_count_gate :
    (∀ c : Int, judge_count (some c) = true ↔ 0 < c) ∧
    judge_count none = true ∧
    (∀ (probes : Nat → ℚ × Bool) (rotate : Bool) (i : Nat) (b : ResultBucket)
      (sp c : Int), c ≤ 0 → goBounded probes rotate i b sp c = (b, sp)) := by
  refine ⟨fun c => by simp [judge_count], rfl, ?_⟩
  intro probes rotate i b sp c hc
  have hfalse : ¬ judge_count (some c) = true := by
    simp only [judge_count, decide_eq_true_eq]
    omega
  rw [goBounded, dif_neg hfalse]

/-- Witness for C10: a zero count runs no iteration. -/
theorem judge_count_gate_witness :
    (0 : Int) ≤ 0 ∧
    goBounded (fun _ => (1, true)) true 0 (mkBucket "example.com" 80) 5000 0
      = (mkBucket "example.com" 80, 5000) :=
  ⟨by decide,
    judge_count_gate.2.2 (fun _ => (1, true)) true 0 (mkBucket "example.com" 80)
      5000 0 (by decide)⟩

/-! ## Claims about `conn_tcp` (C2, C3, C4, C7, C9) -/

/-- A probe environment in which the bind raises (the wall clock reads
100, 101, 102, … on successive `time.time()` calls). -/
def envBindFail : ProbeEnv :=
  ⟨fun i => 100 + (i : ℚ), true, false, false, false, some ("0.0.0.0", 0)⟩

/-- A probe environment in which connect succeeds and the in-flight
`time.sleep`/`s.close()` inside the `try` body raises. -/
def envInflightCloseFail : ProbeEnv :=
  ⟨fun i => 100 + (i : ℚ), false, false, true, false, some ("10.0.0.1", 4242)⟩

/-- Claim C2, evaluated at the failing input: the bind raises before `t1`
is assigned, so `t1` still holds the −1 sentinel, yet the code computes
`conn_time = te - t1 = 100 - (-1) = 101` instead of leaving the
"unmeasured" sentinel −1.  The close duration is the sentinel and the
result is a failure, as the claim says. -/
theorem bind_failure_conn_time_not_sentinel :
    (conn_tcp envBindFail "example.com" 80 2 (some "127.0.0.1") (some 5555)
        false false 0).1.conn_time = 101 ∧
    (conn_tcp envBindFail "example.com" 80 2 (some "127.0.0.1") (some 5555)
        false false 0).1.conn_time ≠ -1 ∧
    (conn_tcp envBindFail "example.com" 80 2 (some "127.0.0.1") (some 5555)
        false false 0).1.close_time = -1 ∧
    (conn_tcp envBindFail "example.com" 80 2 (some "127.0.0.1") (some 5555)
        false false 0).1.err = true := by
  have hs : "127.0.0.1".isEmpty = false := by decide
  norm_num [conn_tcp, conn_epilogue, envBindFail, bind_attempted, hs]

/-- Claim C3, evaluated at the failing input: when the in-flight close
raises after a successful connect (`t2 = 101`), the code computes
`close_time = t3 - t2` with `t3` still at the −1 sentinel, returning
`-102`: a duration that is present (≠ −1) and negative. -/
theorem inflight_failure_close_time_negative :
    (conn_tcp envInflightCloseFail "example.com" 80 2 none none true false
        0).1.close_time = -102 ∧
    (conn_tcp envInflightCloseFail "example.com" 80 2 none none true false
        0).1.close_time ≠ -1 ∧
    (conn_tcp envInflightCloseFail "example.com" 80 2 none none true false
        0).1.close_time < 0 := by
  norm_num [conn_tcp, conn_epilogue, envInflightCloseFail, bind_attempted]

/-- Counterexample to claim C4: a probe in which the connect succeeds and
the in-flight close then fails does not produce a success — the close
error is caught by the probe's general handler and becomes the probe's
error indicator (`err = true`, where the claim asserts `err = false`). -/
theorem inflight_close_failure_surfaces_cex :
    (conn_tcp envInflightCloseFail "example.com" 80 2 none none true false
        0).1.err = true := by
  norm_num [conn_tcp, conn_epilogue, envInflightCloseFail, bind_attempted]

/-- Claim C4 as amended: whenever the bind and connect phases do not raise
but the in-flight close (or the pre-close sleep) does, the probe's result
carries the error indicator — the failure of the in-flight close is not
swallowed; only the cleanup close in the `finally` block is. -/
theorem inflight_close_failure_surfaces (env : ProbeEnv) (dst_host : String)
    (dst_port : Int) (timeout : ℚ) (src_host : Option String)
    (src_port : Option Int) (rst reuse : Bool) (delay_close_second : ℚ)
    (hb : env.bind_fails = false) (hc : env.connect_fails = false)
    (hi : env.inflight_close_fails = true) :
    (conn_tcp env dst_host dst_port timeout src_host src_port rst reuse
        delay_close_second).1.err = true := by
  simp [conn_tcp, hb, hc, hi]

/-- Witness for the amended C4, at the concrete in-flight-close-failure
environment. -/
theorem inflight_close_failure_surfaces_witness :
    envInflightCloseFail.bind_fails = false ∧
    envInflightCloseFail.connect_fails = false ∧
    envInflightCloseFail.inflight_close_fails = true ∧
    (conn_tcp envInflightCloseFail "example.com" 80 2 none none true false
        0).1.err = true :=
  ⟨rfl, rfl, rfl,
    inflight_close_failure_surfaces envInflightCloseFail "example.com" 80 2
      none none true false 0 rfl rfl rfl⟩

/-- The bind condition as claim C7 states it, as a decidable predicate:
both a source host and a source port supplied (non-`None`, non-empty) and
the port a valid 16-bit value in 1–65535. -/
def bindClaimedCondition (src_host : Option String) (src_port : Option Int) : Bool :=
  match src_host, src_port with
  | some s, some p => !(s.isEmpty) && decide (1 ≤ p) && decide (p ≤ 65535)
  | _, _ => false

/-- Counterexample to claim C7: with source host `"127.0.0.1"` and source
port −1 the code attempts the bind (−1 is truthy and `< 65536`), although
−1 is not in the claimed range 1–65535 — the claimed "if and only if"
fails at this input. -/
theorem bind_attempted_negative_port_cex :
    bind_attempted (some "127.0.0.1") (some (-1)) = true ∧
    bindClaimedCondition (some "127.0.0.1") (some (-1)) = false := by
  decide

/-- Claim C7 as amended: the probe attempts the bind exactly when a
non-empty source host and a non-zero source port below 65536 are both
supplied — negative source ports also attempt the bind; a missing or empty
host, a missing or zero port, or a port ≥ 65536 skips it. -/
theorem bind_attempted_iff (src_host : Option String) (src_port : Option Int) :
    bind_attempted src_host src_port = true ↔
      ((∃ s, src_host = some s ∧ s ≠ "") ∧
        ∃ q, src_port = some q ∧ q ≠ 0 ∧ q < 65536) := by
  cases src_host with
  | none => simp [bind_attempted]
  | some s =>
    cases src_port with
    | none => simp [bind_attempted]
    | some q =>
      have hstr : s.isEmpty = false ↔ s ≠ "" := by
        rw [Bool.eq_false_iff, ne_eq, String.isEmpty_iff]
      simp only [bind_attempted, Bool.and_eq_true, Bool.not_eq_true',
        beq_eq_false_iff_ne, decide_eq_true_eq, hstr, Option.some.injEq,
        ne_eq]
      constructor
      · rintro ⟨⟨hs, hq⟩, hlt⟩
        exact ⟨⟨s, rfl, hs⟩, q, rfl, hq, hlt⟩
      · rintro ⟨⟨t, ht, hs⟩, r, hr, hq, hlt⟩
        subst ht
        subst hr
        exact ⟨⟨hs, hq⟩, hlt⟩

/-- Witness for the amended C7: host `"127.0.0.1"`, port 5555 attempts the
bind. -/
theorem bind_attempted_iff_witness :
    bind_attempted (some "127.0.0.1") (some 5555) = true :=
  (bind_attempted_iff (some "127.0.0.1") (some 5555)).mpr
    ⟨⟨"127.0.0.1", rfl, by decide⟩, 5555, rfl, by decide, by decide⟩

/-- Claim C9: a failure of the mandatory cleanup close in the `finally`
block is caught inside the probe: the returned tuple is the same whether or
not that close raises, for every environment, every outcome of the earlier
phases and all arguments — the probe always returns its result, the cleanup
failure at most adds a printed diagnostic. -/
theorem cleanup_close_failure_never_escapes (env : ProbeEnv) (b : Bool)
    (dst_host : String) (dst_port : Int) (timeout : ℚ)
    (src_host : Option String) (src_port : Option Int) (rst reuse : Bool)
    (delay_close_second : ℚ) :
    (conn_tcp { env with cleanup_close_fails := b } dst_host dst_port timeout
        src_host src_port rst reuse delay_close_second).1 =
      (conn_tcp env dst_host dst_port timeout src_host src_port rst reuse
        delay_close_second).1 := by
  rcases env with ⟨clock, bf, cf, icf, ccf, sn⟩
  cases hba : bind_attempted src_host src_port <;> cases bf <;> cases cf <;>
    cases icf <;> simp [conn_tcp, hba]

end Tcpping
